import Mathlib

/-!
Shallow embedding of the LegalEagle retrieval-augmented QA core
(src/rag/conversation_chain.py, src/rag/retriever.py, src/rag/chat_model.py,
src/rag/data_loader.py, src/rag/embedding.py, src/backend/server.py),
with theorems checking the natural-language specification against it.

External effects (Chroma open/build outcomes, PDF loader outcomes, the chat
model, environment variables, library availability) are passed in as explicit
parameters, so every definition is executable; the control flow around them
is translated line by line from the Python source.
-/

deriving instance DecidableEq for Except

namespace LegalEagle

/-- Python whitespace characters recognised by `str.strip()`. -/
def isPyWs (c : Char) : Bool :=
  c = ' ' || c = '\t' || c = '\n' || c = '\r' || c = '\x0b' || c = '\x0c'

/-- Python `s.strip()`: remove leading and trailing whitespace. -/
def pyStrip (s : String) : String :=
  String.mk (((s.toList.dropWhile isPyWs).reverse.dropWhile isPyWs).reverse)

/-- Python truthiness of an optional string: `None` and `""` are falsy. -/
def pyTruthy : Option String → Bool
  | none => false
  | some s => s != ""

/-- Python `a or b` on optional strings (falsy `a` selects `b`). -/
def pyOrStr (a b : Option String) : Option String :=
  if pyTruthy a then a else b

/-- Python `s.lower()` (character-wise, as for the ASCII identifiers used
here). -/
def pyLower (s : String) : String :=
  String.mk (s.toList.map Char.toLower)

/-- A LangChain `Document`: page content plus metadata. -/
structure LCDoc where
  page_content : String
  metadata : List (String × String)
deriving Repr, DecidableEq

/-- A chat message produced by `ChatPromptTemplate.from_messages`. -/
inductive ChatMessage
  | system (text : String)
  | human (text : String)
deriving Repr, DecidableEq

/-- The system prompt of `ConversationChain.create_retrieval_qa_chain`
(src/rag/conversation_chain.py), with the context slot filled in. -/
def system_prompt (context : String) : String :=
  "You are a legal expert and contract analyzer.\nUse the following context to answer the user\x27s question thoroughly and accurately.\n\nIf you cannot find the answer in the context, say \"I don\x27t know based on the provided document.\"\n\nContext:\n" ++ context

/-- `prompt.format_messages(context=..., input=...)`: a system message from the
template followed by the human question. -/
def format_messages (context input : String) : List ChatMessage :=
  [ChatMessage.system (system_prompt context), ChatMessage.human input]

/-- Result object returned by `chat_model.invoke`: an optional `content`
attribute plus its `str()` rendering. -/
structure ModelResult where
  content : Option String
  asString : String
deriving Repr, DecidableEq

/-- `getattr(result, "content", None) or str(result)`. -/
def extract_answer (r : ModelResult) : String :=
  match r.content with
  | some c => if c = "" then r.asString else c
  | none => r.asString

/-- The dictionary returned by the chain: answer text and context documents. -/
structure ChainOutput where
  answer : String
  context : List LCDoc
deriving Repr, DecidableEq

/-- Instrumentation recording which collaborators `_invoke` actually called. -/
structure InvokeLog where
  retrieverCalled : Bool
  modelCalled : Bool
deriving Repr, DecidableEq

/-- `_invoke` of `ConversationChain.create_retrieval_qa_chain`
(src/rag/conversation_chain.py, lines 31-47).  The retriever is `Option`-typed
because `RAGPipeline.qa_chain` may hand it `None`; the chat model may raise,
modelled by `Except`.  Exceptions of the chat model propagate (there is no
handler inside `_invoke`). -/
def create_retrieval_qa_chain_invoke
    (chat_model : List ChatMessage → Except String ModelResult)
    (retriever : Option (String → List LCDoc))
    (inputs : Option String) :
    Except String (ChainOutput × InvokeLog) :=
  let question := pyStrip (inputs.getD "")
  if question = "" then
    .ok ({ answer := "", context := [] }, { retrieverCalled := false, modelCalled := false })
  else
    let docs := match retriever with
      | some r => r question
      | none => []
    let context_text := String.intercalate "\n\n"
      ((docs.filter (fun d => d.page_content != "")).map (fun d => d.page_content))
    let messages := format_messages context_text question
    match chat_model messages with
    | .error e => .error e
    | .ok result =>
        .ok ({ answer := extract_answer result, context := docs },
             { retrieverCalled := retriever.isSome, modelCalled := true })

/-- C3: for every input question that is empty or whitespace-only after
trimming, the conversation chain returns answer `""` and context `[]` without
invoking the retriever and without invoking the chat model. -/
theorem empty_question_short_circuit
    (chat_model : List ChatMessage → Except String ModelResult)
    (retriever : Option (String → List LCDoc))
    (inputs : Option String)
    (h : pyStrip (inputs.getD "") = "") :
    create_retrieval_qa_chain_invoke chat_model retriever inputs =
      .ok ({ answer := "", context := [] },
           { retrieverCalled := false, modelCalled := false }) := by
  unfold create_retrieval_qa_chain_invoke
  simp [h]

/-- Witness for C3 at a whitespace-only question with a failing model and a
non-trivial retriever, both of which are ignored. -/
theorem empty_question_short_circuit_witness :
    create_retrieval_qa_chain_invoke (fun _ => .error "model down")
      (some (fun _ => [{ page_content := "clause", metadata := [] }]))
      (some " \t\n ") =
      .ok ({ answer := "", context := [] },
           { retrieverCalled := false, modelCalled := false }) :=
  empty_question_short_circuit _ _ _ (by decide)

/-- Joining no context documents yields the empty context block. -/
theorem intercalate_nil_eq_empty (s : String) : String.intercalate s [] = "" := rfl

/-- C10: with a null retriever (index build failed) and a non-empty question,
the chain still invokes the chat model with an empty context block and returns
the model text together with context `[]`; it does not raise or short-circuit. -/
theorem null_retriever_empty_context_invokes_model
    (m : List ChatMessage → ModelResult) (q : String)
    (h : pyStrip q ≠ "") :
    create_retrieval_qa_chain_invoke (fun msgs => .ok (m msgs)) none (some q) =
      .ok ({ answer := extract_answer (m (format_messages "" (pyStrip q))),
             context := [] },
           { retrieverCalled := false, modelCalled := true }) := by
  unfold create_retrieval_qa_chain_invoke
  simp [h, intercalate_nil_eq_empty]

/-- Witness for C10 at a concrete question and model. -/
theorem null_retriever_empty_context_invokes_model_witness :
    create_retrieval_qa_chain_invoke
      (fun _ => .ok { content := some "The term is 12 months.", asString := "AIMessage" })
      none (some "What is the term?") =
      .ok ({ answer := "The term is 12 months.", context := [] },
           { retrieverCalled := false, modelCalled := true }) :=
  null_retriever_empty_context_invokes_model
    (fun _ => { content := some "The term is 12 months.", asString := "AIMessage" })
    "What is the term?" (by decide)

/-- Where the vector store handed to `as_retriever` came from: the persisted
collection opened by name, or a fresh `Chroma.from_documents` build. -/
inductive StoreSource
  | openedExisting
  | builtFromDocuments (splits : List LCDoc)
deriving Repr, DecidableEq

/-- The retriever returned by `vectorstore.as_retriever(search_type="mmr",
search_kwargs={"k": 6, "fetch_k": 20})`. -/
structure MMRRetrieverHandle where
  source : StoreSource
  search_type : String
  k : Nat
  fetch_k : Nat
deriving Repr, DecidableEq

/-- Observable steps taken by `Retriever.get_retriever`, in order. -/
inductive RetStep
  | chunkDocuments (splits : List LCDoc)
  | openCollection
  | embedAndPersist (splits : List LCDoc)
deriving Repr, DecidableEq

/-- `Retriever.__init__`: `self.collection_name = collection_name or "contract"`. -/
def retriever_collection_name (collection_name : Option String) : String :=
  if pyTruthy collection_name then collection_name.getD "" else "contract"

/-- `Retriever.get_retriever` (src/rag/retriever.py, lines 12-53).

External outcomes are parameters: `splitOutcome` is what
`text_splitter.split_documents` produces (or raises), `openOutcome` is the
`Chroma(...)._collection.count()` of the persisted collection (or the
exception raised opening it), and `buildOutcome` is what
`Chroma.from_documents` does on the given splits.

Control flow from the source: the splitter runs first, unconditionally; the
inner `try` opens the persisted collection and raises
`ValueError("Empty vector store, rebuilding index")` when its count is zero;
the inner `except Exception` rebuilds from the splits; the outer
`except Exception` catches everything and returns `None`.  The second
component records the steps that ran. -/
def get_retriever
    (splitOutcome : Except String (List LCDoc))
    (openOutcome : Except String Nat)
    (buildOutcome : List LCDoc → Except String Unit) :
    Option MMRRetrieverHandle × List RetStep :=
  match splitOutcome with
  | .error _ => (none, [])
  | .ok splits =>
    match openOutcome with
    | .ok cnt =>
        if cnt = 0 then
          match buildOutcome splits with
          | .ok _ =>
              (some { source := .builtFromDocuments splits,
                      search_type := "mmr", k := 6, fetch_k := 20 },
               [.chunkDocuments splits, .openCollection, .embedAndPersist splits])
          | .error _ =>
              (none, [.chunkDocuments splits, .openCollection, .embedAndPersist splits])
        else
          (some { source := .openedExisting,
                  search_type := "mmr", k := 6, fetch_k := 20 },
           [.chunkDocuments splits, .openCollection])
    | .error _ =>
        match buildOutcome splits with
        | .ok _ =>
            (some { source := .builtFromDocuments splits,
                    search_type := "mmr", k := 6, fetch_k := 20 },
             [.chunkDocuments splits, .openCollection, .embedAndPersist splits])
        | .error _ =>
            (none, [.chunkDocuments splits, .openCollection, .embedAndPersist splits])

/-- C2 counterexample: on a Ready collection (open succeeds with a non-zero
count) the persisted store is reused and embedding is skipped, but the
chunking step still runs — it is not "skipped entirely" as the claim states:
`split_documents` executes before the open attempt on every call. -/
theorem ready_collection_still_chunks_counterexample :
    get_retriever (.ok [{ page_content := "contract text", metadata := [] }])
        (.ok 5) (fun _ => .ok ()) =
      (some { source := .openedExisting, search_type := "mmr", k := 6, fetch_k := 20 },
       [.chunkDocuments [{ page_content := "contract text", metadata := [] }],
        .openCollection]) ∧
    RetStep.chunkDocuments [{ page_content := "contract text", metadata := [] }] ∈
      (get_retriever (.ok [{ page_content := "contract text", metadata := [] }])
        (.ok 5) (fun _ => .ok ())).2 := by
  constructor
  · rfl
  · simp [get_retriever]

/-- C2 amended: the open-or-build protocol, except that chunking runs
unconditionally before the open attempt.  Open failure or a zero count
triggers a rebuild that embeds and persists every chunk; otherwise the
collection is Ready and reused as-is, with only the embed/persist step
skipped (the chunks computed up front are discarded). -/
theorem open_or_build_protocol_amended
    (splits : List LCDoc) (openOutcome : Except String Nat)
    (buildOutcome : List LCDoc → Except String Unit) :
    ((get_retriever (.ok splits) openOutcome buildOutcome).2.head? =
       some (.chunkDocuments splits)) ∧
    (∀ cnt, openOutcome = .ok cnt → cnt ≠ 0 →
       get_retriever (.ok splits) openOutcome buildOutcome =
         (some { source := .openedExisting, search_type := "mmr", k := 6, fetch_k := 20 },
          [.chunkDocuments splits, .openCollection])) ∧
    (∀ e, openOutcome = .error e → buildOutcome splits = .ok () →
       get_retriever (.ok splits) openOutcome buildOutcome =
         (some { source := .builtFromDocuments splits,
                 search_type := "mmr", k := 6, fetch_k := 20 },
          [.chunkDocuments splits, .openCollection, .embedAndPersist splits])) ∧
    (openOutcome = .ok 0 → buildOutcome splits = .ok () →
       get_retriever (.ok splits) openOutcome buildOutcome =
         (some { source := .builtFromDocuments splits,
                 search_type := "mmr", k := 6, fetch_k := 20 },
          [.chunkDocuments splits, .openCollection, .embedAndPersist splits])) := by
  refine ⟨?_, ?_, ?_, ?_⟩
  · cases openOutcome with
    | ok cnt =>
        by_cases h : cnt = 0
        · subst h
          cases hb : buildOutcome splits with
          | ok u => simp [get_retriever, hb]
          | error e => simp [get_retriever, hb]
        · simp [get_retriever, h]
    | error e =>
        cases hb : buildOutcome splits with
        | ok u => simp [get_retriever, hb]
        | error e2 => simp [get_retriever, hb]
  · intro cnt hoc hcnt
    subst hoc
    simp [get_retriever, hcnt]
  · intro e hoc hb
    subst hoc
    simp [get_retriever, hb]
  · intro hoc hb
    subst hoc
    simp [get_retriever, hb]

/-- Witness for C2 amended: a stale (zero-count) collection at concrete inputs
is rebuilt from the chunks. -/
theorem open_or_build_protocol_amended_witness :
    get_retriever (.ok [{ page_content := "clause 1", metadata := [] }])
        (.ok 0) (fun _ => .ok ()) =
      (some { source := .builtFromDocuments [{ page_content := "clause 1", metadata := [] }],
              search_type := "mmr", k := 6, fetch_k := 20 },
       [.chunkDocuments [{ page_content := "clause 1", metadata := [] }],
        .openCollection,
        .embedAndPersist [{ page_content := "clause 1", metadata := [] }]]) :=
  (open_or_build_protocol_amended [{ page_content := "clause 1", metadata := [] }]
      (.ok 0) (fun _ => .ok ())).2.2.2 rfl rfl

/-- C1 counterexample: a retrieval/index-build failure does not propagate as a
typed failure.  `get_retriever` catches the Chroma open failure and the
rebuild failure and returns `None`; the Answer flow then runs the chain with
a null retriever, which invokes the chat model on an empty context block and
returns its text with context `[]` — a non-empty answer produced from empty
context with no error signalled anywhere. -/
theorem retrieval_failure_swallowed_counterexample :
    (get_retriever (.ok [{ page_content := "contract text", metadata := [] }])
        (.error "chroma connection refused")
        (fun _ => .error "embedding backend down")).1 = none ∧
    create_retrieval_qa_chain_invoke
        (fun _ => .ok { content := some "The deposit is $500.", asString := "AIMessage" })
        none (some "What is the deposit?") =
      .ok ({ answer := "The deposit is $500.", context := [] },
           { retrieverCalled := false, modelCalled := true }) := by
  exact ⟨rfl, rfl⟩

/-- Availability of the optional provider client libraries in the runtime. -/
structure LibsAvailable where
  langchain_openai : Bool
  langchain_google_genai : Bool
  langchain_anthropic : Bool
  langchain_groq : Bool
deriving Repr, DecidableEq

/-- The chat-model object constructed by `ChatModel.initialize_chat_model`.
Every branch passes `temperature=0.0` and the stored model name and key; no
call to the backend is made, only a client object is built. -/
inductive ChatBackend
  | chatOpenAI (model_name : String) (api_key : Option String)
  | chatGoogleGenerativeAI (model : String) (api_key : Option String)
  | chatAnthropic (model : String) (api_key : Option String)
  | chatGroq (model : String) (api_key : Option String)
deriving Repr, DecidableEq

/-- Exceptions raised by `ChatModel.initialize_chat_model`: an unhandled
`ImportError` (the `langchain_openai` import has no handler), the
`RuntimeError` wrapping a missing optional library, or the `ValueError` for
an unsupported provider. -/
inductive ChatModelError
  | importError (module : String)
  | runtimeError (message : String)
  | valueError (message : String)
deriving Repr, DecidableEq

/-- `ChatModel.__init__`: `self.provider = (provider or "openai").lower()`. -/
def chat_model_provider (provider : Option String) : String :=
  pyLower (if pyTruthy provider then provider.getD "" else "openai")

/-- `ChatModel.initialize_chat_model` (src/rag/chat_model.py, lines 7-60),
with library availability passed in.  For `openai` the import is not wrapped
in `try`, so an unavailable library raises a bare `ImportError`; the other
three providers wrap the import and raise `RuntimeError`.  An identifier
outside the recognised set raises `ValueError`. -/
def chat_model_init (provider : Option String) (model_name : String)
    (api_key : Option String) (libs : LibsAvailable) :
    Except ChatModelError ChatBackend :=
  let p := chat_model_provider provider
  if p = "openai" then
    if libs.langchain_openai then .ok (.chatOpenAI model_name api_key)
    else .error (.importError "langchain_openai")
  else if p = "gemini" then
    if libs.langchain_google_genai then .ok (.chatGoogleGenerativeAI model_name api_key)
    else .error (.runtimeError "Gemini provider selected but \x27langchain-google-genai\x27 is not installed.")
  else if p = "claude" then
    if libs.langchain_anthropic then .ok (.chatAnthropic model_name api_key)
    else .error (.runtimeError "Claude provider selected but \x27langchain-anthropic\x27 is not installed.")
  else if p = "groq" then
    if libs.langchain_groq then .ok (.chatGroq model_name api_key)
    else .error (.runtimeError "Groq provider selected but \x27langchain-groq\x27 is not installed.")
  else .error (.valueError ("Unsupported LLM provider: " ++ p))

/-- C7 counterexample: the factory does not fail on every identifier outside
the four-element set — the empty identifier (and `None`) is silently
defaulted to `openai` and construction succeeds. -/
theorem empty_provider_defaults_openai_counterexample :
    chat_model_init (some "") "gpt-4o-mini" (some "sk-test")
        { langchain_openai := true, langchain_google_genai := true,
          langchain_anthropic := true, langchain_groq := true } =
      .ok (.chatOpenAI "gpt-4o-mini" (some "sk-test")) ∧
    ¬("" = "openai" ∨ "" = "gemini" ∨ "" = "claude" ∨ "" = "groq") := by
  exact ⟨by decide, by decide⟩

/-- C7 amended: after lowercasing, and defaulting a missing or empty
identifier to `openai`, the factory recognises exactly the four identifiers;
it fails with `ValueError` on any other identifier and with an
`ImportError`/`RuntimeError` when the provider\x27s client library is
unavailable, and for a recognised provider with its library available it
succeeds for every api key and model name — construction is a pure client
build with no backend call. -/
theorem chat_model_factory_amended
    (provider : Option String) (model_name : String)
    (api_key : Option String) (libs : LibsAvailable) :
    (¬(chat_model_provider provider = "openai" ∨ chat_model_provider provider = "gemini" ∨
        chat_model_provider provider = "claude" ∨ chat_model_provider provider = "groq") →
      chat_model_init provider model_name api_key libs =
        .error (.valueError ("Unsupported LLM provider: " ++ chat_model_provider provider))) ∧
    (chat_model_provider provider = "openai" →
      chat_model_init provider model_name api_key libs =
        if libs.langchain_openai then .ok (.chatOpenAI model_name api_key)
        else .error (.importError "langchain_openai")) ∧
    (chat_model_provider provider = "gemini" →
      chat_model_init provider model_name api_key libs =
        if libs.langchain_google_genai then .ok (.chatGoogleGenerativeAI model_name api_key)
        else .error (.runtimeError
          "Gemini provider selected but \x27langchain-google-genai\x27 is not installed.")) ∧
    (chat_model_provider provider = "claude" →
      chat_model_init provider model_name api_key libs =
        if libs.langchain_anthropic then .ok (.chatAnthropic model_name api_key)
        else .error (.runtimeError
          "Claude provider selected but \x27langchain-anthropic\x27 is not installed.")) ∧
    (chat_model_provider provider = "groq" →
      chat_model_init provider model_name api_key libs =
        if libs.langchain_groq then .ok (.chatGroq model_name api_key)
        else .error (.runtimeError
          "Groq provider selected but \x27langchain-groq\x27 is not installed.")) ∧
    (pyTruthy provider = false → chat_model_provider provider = "openai") := by
  refine ⟨?_, ?_, ?_, ?_, ?_, ?_⟩
  · intro hout
    push_neg at hout
    obtain ⟨h1, h2, h3, h4⟩ := hout
    simp [chat_model_init, h1, h2, h3, h4]
  · intro h
    simp [chat_model_init, h]
  · intro h
    have h1 : chat_model_provider provider ≠ "openai" := by simp [h]
    simp [chat_model_init, h, h1]
  · intro h
    have h1 : chat_model_provider provider ≠ "openai" := by simp [h]
    have h2 : chat_model_provider provider ≠ "gemini" := by simp [h]
    simp [chat_model_init, h, h1, h2]
  · intro h
    have h1 : chat_model_provider provider ≠ "openai" := by simp [h]
    have h2 : chat_model_provider provider ≠ "gemini" := by simp [h]
    have h3 : chat_model_provider provider ≠ "claude" := by simp [h]
    simp [chat_model_init, h, h1, h2, h3]
  · intro h
    simp [chat_model_provider, h]
    decide

/-- Witness for C7 amended: an unrecognised identifier fails with the
`ValueError`, at concrete inputs. -/
theorem chat_model_factory_amended_witness :
    chat_model_init (some "mistral") "mistral-large" none
        { langchain_openai := true, langchain_google_genai := true,
          langchain_anthropic := true, langchain_groq := true } =
      .error (.valueError ("Unsupported LLM provider: " ++
        chat_model_provider (some "mistral"))) :=
  (chat_model_factory_amended (some "mistral") "mistral-large" none
      { langchain_openai := true, langchain_google_genai := true,
        langchain_anthropic := true, langchain_groq := true }).1 (by decide)

/-- The embeddings object built by `EmbeddingsCreator.create_embeddings`. -/
inductive EmbeddingBackend
  | openAIEmbeddings
  | huggingFaceEmbeddings (model_name : String)
deriving Repr, DecidableEq

/-- `EmbeddingsCreator.__init__`:
`(os.getenv("LEGAL_EAGLE_EMBEDDINGS_PROVIDER") or "").strip().lower() or None`. -/
def embeddings_provider_override (env_value : Option String) : Option String :=
  let s := pyLower (pyStrip (env_value.getD ""))
  if s = "" then none else some s

/-- `EmbeddingsCreator.create_embeddings` (src/rag/embedding.py, lines 12-35).
`override_env` is `LEGAL_EAGLE_EMBEDDINGS_PROVIDER`, `openai_key` is
`OPENAI_API_KEY`, `hf_model_env` is `LEGAL_EAGLE_HF_EMBEDDING_MODEL`; each is
`none` when the variable is unset. -/
def create_embeddings (override_env openai_key hf_model_env : Option String) :
    EmbeddingBackend :=
  let provider0 := embeddings_provider_override override_env
  let provider :=
    if provider0 = some "openai" ∨ provider0 = some "huggingface" then provider0.getD ""
    else if pyTruthy openai_key then "openai" else "huggingface"
  if provider = "openai" then .openAIEmbeddings
  else .huggingFaceEmbeddings (hf_model_env.getD "sentence-transformers/all-MiniLM-L6-v2")

/-- The provider identifier a constructed embeddings backend belongs to. -/
def embedding_backend_name : EmbeddingBackend → String
  | .openAIEmbeddings => "openai"
  | .huggingFaceEmbeddings _ => "huggingface"

/-- C6 counterexample: an explicit override that is configured but not a
recognised embedding provider is not used — with override `cohere` and a
hosted credential present, the hosted `openai` backend is selected instead of
the configured provider. -/
theorem unrecognized_embedding_override_counterexample :
    embeddings_provider_override (some "cohere") = some "cohere" ∧
    create_embeddings (some "cohere") (some "sk-test") none = .openAIEmbeddings ∧
    embedding_backend_name
        (create_embeddings (some "cohere") (some "sk-test") none) ≠ "cohere" := by
  exact ⟨by decide, by decide, by decide⟩

/-- C6 amended: if the explicit override names a recognised embedding
provider (`openai` or `huggingface`, after trimming and lowercasing), it is
used; any other override is ignored, and then a hosted-provider credential in
the environment selects the hosted provider, otherwise the local fallback
model is used. -/
theorem embedding_provider_selection_amended
    (override_env openai_key hf_model_env : Option String) :
    (embeddings_provider_override override_env = some "openai" →
      create_embeddings override_env openai_key hf_model_env = .openAIEmbeddings) ∧
    (embeddings_provider_override override_env = some "huggingface" →
      create_embeddings override_env openai_key hf_model_env =
        .huggingFaceEmbeddings
          (hf_model_env.getD "sentence-transformers/all-MiniLM-L6-v2")) ∧
    (embeddings_provider_override override_env ≠ some "openai" →
     embeddings_provider_override override_env ≠ some "huggingface" →
      create_embeddings override_env openai_key hf_model_env =
        if pyTruthy openai_key then .openAIEmbeddings
        else .huggingFaceEmbeddings
          (hf_model_env.getD "sentence-transformers/all-MiniLM-L6-v2")) := by
  refine ⟨?_, ?_, ?_⟩
  · intro h
    simp [create_embeddings, h]
  · intro h
    simp [create_embeddings, h]
  · intro h1 h2
    by_cases hk : pyTruthy openai_key
    · simp [create_embeddings, h1, h2, hk]
    · simp [create_embeddings, h1, h2, hk]

/-- Witness for C6 amended: with no override and no hosted credential, the
local fallback model is selected, at concrete inputs. -/
theorem embedding_provider_selection_amended_witness :
    create_embeddings none none none =
      .huggingFaceEmbeddings "sentence-transformers/all-MiniLM-L6-v2" :=
  (embedding_provider_selection_amended none none none).2.2
    (by decide) (by decide)

/-- Exceptions raised by `LoadDocuments.load_document`: the
`FileNotFoundError` for a missing path, an exception propagated out of a
loader (for PDFs, only after the PyPDF→PyMuPDF fallback is exhausted), or
the `ValueError` for an unrecognised extension. -/
inductive LoadError
  | fileNotFoundError (path : String)
  | loaderException (message : String)
  | valueError (message : String)
deriving Repr, DecidableEq

/-- `LoadDocuments.load_document` (src/rag/data_loader.py, lines 23-52).

`file_exists` is `os.path.exists(file_path)` and `ext` is
`os.path.splitext(file_path)[1].lower()`; the four loader outcomes are what
`PyPDFLoader`, `PyMuPDFLoader`, `UnstructuredWordDocumentLoader` and
`TextLoader` produce (or raise) on this file.  For `.pdf`, PyPDF is tried
first; on any exception PyMuPDF is tried; a PyMuPDF exception propagates
uncaught. -/
def load_document
    (file_path : String) (file_exists : Bool) (ext : String)
    (pypdf_outcome pymupdf_outcome word_outcome text_outcome :
      Except String (List LCDoc)) :
    Except LoadError (List LCDoc) :=
  if !file_exists then
    .error (.fileNotFoundError ("Uploaded file not found: " ++ file_path))
  else if ext = ".pdf" then
    match pypdf_outcome with
    | .ok docs => .ok docs
    | .error _ =>
      match pymupdf_outcome with
      | .ok docs => .ok docs
      | .error e => .error (.loaderException e)
  else if ext = ".doc" ∨ ext = ".docx" then
    match word_outcome with
    | .ok docs => .ok docs
    | .error e => .error (.loaderException e)
  else if ext = ".txt" then
    match text_outcome with
    | .ok docs => .ok docs
    | .error e => .error (.loaderException e)
  else
    .error (.valueError ("Unsupported file type for RAG pipeline: " ++ ext))

/-- C5: PDF loading tries the primary strategy (PyPDF) first and uses its
result whenever it succeeds; if the primary raises any error the secondary
strategy (PyMuPDF) is tried and its result used on success; only when both
fail does the loader surface an error, namely the typed loader exception
carrying the secondary failure — the fallback is an ordered sequence of
attempts and never silently swallows a double failure. -/
theorem pdf_loader_fallback_order
    (file_path : String)
    (pypdf_outcome pymupdf_outcome word_outcome text_outcome :
      Except String (List LCDoc)) :
    (∀ docs, pypdf_outcome = .ok docs →
      load_document file_path true ".pdf" pypdf_outcome pymupdf_outcome
        word_outcome text_outcome = .ok docs) ∧
    (∀ e docs, pypdf_outcome = .error e → pymupdf_outcome = .ok docs →
      load_document file_path true ".pdf" pypdf_outcome pymupdf_outcome
        word_outcome text_outcome = .ok docs) ∧
    (∀ e1 e2, pypdf_outcome = .error e1 → pymupdf_outcome = .error e2 →
      load_document file_path true ".pdf" pypdf_outcome pymupdf_outcome
        word_outcome text_outcome = .error (.loaderException e2)) := by
  refine ⟨?_, ?_, ?_⟩
  · intro docs h
    subst h
    simp [load_document]
  · intro e docs h1 h2
    subst h1; subst h2
    simp [load_document]
  · intro e1 e2 h1 h2
    subst h1; subst h2
    simp [load_document]

/-- Witness for C5 at concrete outcomes: primary failure, secondary failure,
and the surfaced error is the typed loader exception of the secondary. -/
theorem pdf_loader_fallback_order_witness :
    load_document "uploads/contract.pdf" true ".pdf"
        (.error "PyPDF parse failure") (.error "PyMuPDF parse failure")
        (.ok []) (.ok []) =
      .error (.loaderException "PyMuPDF parse failure") :=
  (pdf_loader_fallback_order "uploads/contract.pdf"
      (.error "PyPDF parse failure") (.error "PyMuPDF parse failure")
      (.ok []) (.ok [])).2.2 "PyPDF parse failure" "PyMuPDF parse failure" rfl rfl

/-- Python `s.title()` for the ASCII provider identifiers: the first letter of
each alphabetic run is uppercased, the rest lowercased. -/
def pyTitleAux : List Char → Bool → List Char
  | [], _ => []
  | c :: cs, prevAlpha =>
    (if c.isAlpha then (if prevAlpha then c.toLower else c.toUpper) else c) ::
      pyTitleAux cs c.isAlpha

/-- Python `s.title()`. -/
def pyTitle (s : String) : String := String.mk (pyTitleAux s.toList false)

/-- The per-user `LLMSettings` row (src/backend/models.py) as read by
`chat_with_document`: nullable provider/model preferences and one nullable
stored API key per provider. -/
structure LLMSettingsRecord where
  preferred_provider : Option String
  model_name : Option String
  openai_api_key : Option String
  gemini_api_key : Option String
  claude_api_key : Option String
  groq_api_key : Option String
deriving Repr, DecidableEq

/-- The environment keys read at server start (src/backend/server.py,
lines 33-36); `none` when the variable is unset. -/
structure EnvApiKeys where
  OPENAI_API_KEY : Option String
  GEMINI_API_KEY : Option String
  ANTHROPIC_API_KEY : Option String
  GROQ_API_KEY : Option String
deriving Repr, DecidableEq

/-- The user-stored key consulted for a provider (the `settings.*_api_key`
read in src/backend/server.py, lines 527-534). -/
def settings_key_for (provider : String) (s : LLMSettingsRecord) : Option String :=
  if provider = "openai" then s.openai_api_key
  else if provider = "gemini" then s.gemini_api_key
  else if provider = "claude" then s.claude_api_key
  else if provider = "groq" then s.groq_api_key
  else none

/-- The environment key consulted for a provider (same lines; `claude` reads
`ANTHROPIC_API_KEY`). -/
def env_key_for (provider : String) (env : EnvApiKeys) : Option String :=
  if provider = "openai" then env.OPENAI_API_KEY
  else if provider = "gemini" then env.GEMINI_API_KEY
  else if provider = "claude" then env.ANTHROPIC_API_KEY
  else if provider = "groq" then env.GROQ_API_KEY
  else none

/-- `api_key = settings.<provider>_api_key or <ENV_KEY>`
(src/backend/server.py, lines 526-534). -/
def resolve_api_key (provider : String) (s : LLMSettingsRecord)
    (env : EnvApiKeys) : Option String :=
  pyOrStr (settings_key_for provider s) (env_key_for provider env)

/-- The built-in default model per provider (src/backend/server.py,
lines 516-524). -/
def default_model_for (provider : String) : String :=
  if provider = "openai" then "gpt-4o-mini"
  else if provider = "gemini" then "gemini-1.5-pro-latest"
  else if provider = "claude" then "claude-3-5-sonnet-20241022"
  else "llama3-70b-8192"

/-- Outcome of the request-validation and resolution prefix of
`chat_with_document`, up to (but not including) the `RAGPipeline` call. -/
inductive ChatResolution
  | errorQuestionRequired
  | errorUnsupportedProvider
  | errorNoApiKey (provider : String)
  | proceed (provider : String) (model_name : String) (api_key : String)
deriving Repr, DecidableEq

/-- `provider = (requested_provider or settings.preferred_provider or
"openai").lower()` with the request value pre-normalised as
`(data.get("provider") or "").strip().lower() or None`
(src/backend/server.py, lines 483 and 505). -/
def chat_resolved_provider (data_provider : Option String)
    (settings : LLMSettingsRecord) : String :=
  let requested_provider :=
    let rp := pyLower (pyStrip (data_provider.getD ""))
    if rp = "" then none else some rp
  pyLower ((pyOrStr (pyOrStr requested_provider settings.preferred_provider)
    (some "openai")).getD "")

/-- The resolution prefix of `chat_with_document` (src/backend/server.py,
lines 481-539): trim the question and reject an empty one; normalise the
requested provider and model; resolve the provider as
`requested or settings.preferred_provider or "openai"`, lowercased, and
reject identifiers outside the four-element set; resolve the model name as
request → stored preference → per-provider default; resolve the API key as
user-stored key `or` environment key, and reject when that is falsy.  Only a
`proceed` outcome reaches the `RAGPipeline`/chat-model construction. -/
def chat_with_document_resolution
    (data_question data_provider data_model_name : Option String)
    (settings : LLMSettingsRecord) (env : EnvApiKeys) : ChatResolution :=
  let question := pyStrip (data_question.getD "")
  if question = "" then .errorQuestionRequired
  else
    let requested_model :=
      let rm := pyStrip (data_model_name.getD "")
      if rm = "" then none else some rm
    let provider := chat_resolved_provider data_provider settings
    if ¬(provider = "openai" ∨ provider = "gemini" ∨
         provider = "claude" ∨ provider = "groq") then
      .errorUnsupportedProvider
    else
      let model_name :=
        if pyTruthy requested_model then requested_model.getD ""
        else if pyTruthy settings.model_name then settings.model_name.getD ""
        else default_model_for provider
      let api_key := resolve_api_key provider settings env
      if ¬pyTruthy api_key then .errorNoApiKey provider
      else .proceed provider model_name (api_key.getD "")

/-- HTTP-level outcome of `chat_with_document` up to the point where the chat
model has been constructed (or an error response returned). -/
inductive ChatHandlerStage
  | httpError (status : Nat) (message : String)
  | modelConstructed (backend : ChatBackend)
deriving Repr, DecidableEq

/-- `chat_with_document` continued past resolution: the error branches return
their HTTP 400 responses, and only `proceed` goes on to build the chat model
(`RAGPipeline.qa_chain` constructs `ChatModel` first); a construction
exception is caught and returned as the HTTP 500 "Failed to analyze
document" response (src/backend/server.py, lines 541-554). -/
def chat_with_document_until_model
    (data_question data_provider data_model_name : Option String)
    (settings : LLMSettingsRecord) (env : EnvApiKeys)
    (libs : LibsAvailable) : ChatHandlerStage :=
  match chat_with_document_resolution data_question data_provider
      data_model_name settings env with
  | .errorQuestionRequired => .httpError 400 "Question is required"
  | .errorUnsupportedProvider => .httpError 400 "Unsupported LLM provider"
  | .errorNoApiKey p =>
      .httpError 400 ("No API key configured for provider " ++ pyTitle p)
  | .proceed p m k =>
      match chat_model_init (some p) m (some k) libs with
      | .ok b => .modelConstructed b
      | .error _ => .httpError 500 "Failed to analyze document"

/-- For each of the four recognised identifiers, requesting that provider
resolves to it (stripping/lowercasing leave it unchanged and the stored
preference is not consulted). -/
theorem chat_resolved_provider_eq (p : String)
    (hp : p = "openai" ∨ p = "gemini" ∨ p = "claude" ∨ p = "groq")
    (s : LLMSettingsRecord) :
    chat_resolved_provider (some p) s = p := by
  rcases hp with rfl | rfl | rfl | rfl <;> rfl

/-- C4: for every recognised provider, key resolution uses the user-stored
key when it is present (non-empty), otherwise the environment key; and when
both are absent the handler answers the "No API key configured" error
without constructing any chat model — the failure is surfaced before any
model or network call. -/
theorem credential_resolution_precedence
    (p : String)
    (hp : p = "openai" ∨ p = "gemini" ∨ p = "claude" ∨ p = "groq")
    (s : LLMSettingsRecord) (env : EnvApiKeys) :
    (pyTruthy (settings_key_for p s) = true →
      resolve_api_key p s env = settings_key_for p s) ∧
    (pyTruthy (settings_key_for p s) = false →
      resolve_api_key p s env = env_key_for p env) ∧
    (settings_key_for p s = none → env_key_for p env = none →
      ∀ q dm, pyStrip q ≠ "" →
        chat_with_document_resolution (some q) (some p) dm s env =
          .errorNoApiKey p ∧
        ∀ libs, chat_with_document_until_model (some q) (some p) dm s env libs =
          .httpError 400 ("No API key configured for provider " ++ pyTitle p)) := by
  refine ⟨?_, ?_, ?_⟩
  · intro h
    simp [resolve_api_key, pyOrStr, h]
  · intro h
    simp [resolve_api_key, pyOrStr, h]
  · intro hs he q dm hq
    have hkey : resolve_api_key p s env = none := by
      simp [resolve_api_key, pyOrStr, hs, he, pyTruthy]
    have hres : chat_with_document_resolution (some q) (some p) dm s env =
        .errorNoApiKey p := by
      have hprov := chat_resolved_provider_eq p hp s
      unfold chat_with_document_resolution
      simp only [Option.getD_some]
      rw [if_neg hq, hprov, hkey, if_neg (not_not_intro hp)]
      simp [pyTruthy]
    refine ⟨hres, ?_⟩
    intro libs
    simp [chat_with_document_until_model, hres]

/-- Witness for C4 at concrete inputs: a user-stored key wins over the
environment key. -/
theorem credential_resolution_precedence_witness :
    resolve_api_key "claude"
        { preferred_provider := some "claude", model_name := none,
          openai_api_key := none, gemini_api_key := none,
          claude_api_key := some "sk-user", groq_api_key := none }
        { OPENAI_API_KEY := none, GEMINI_API_KEY := none,
          ANTHROPIC_API_KEY := some "sk-env", GROQ_API_KEY := none } =
      some "sk-user" :=
  (credential_resolution_precedence "claude" (Or.inr (Or.inr (Or.inl rfl)))
      { preferred_provider := some "claude", model_name := none,
        openai_api_key := none, gemini_api_key := none,
        claude_api_key := some "sk-user", groq_api_key := none }
      { OPENAI_API_KEY := none, GEMINI_API_KEY := none,
        ANTHROPIC_API_KEY := some "sk-env", GROQ_API_KEY := none }).1 (by decide)

/-- C1 amended: chat-model invocation failures propagate out of the chain
unchanged, and a chat-model construction failure during an Answer operation
surfaces to the caller as the typed HTTP 500 "Failed to analyze document"
response; but failures inside `get_retriever` (open failure or zero-count
with a failing rebuild) are caught and downgraded to a `None` retriever,
after which the chain answers from an empty context block with context `[]`
and no error signalled. -/
theorem answer_error_propagation_amended
    (retriever : Option (String → List LCDoc)) (q e : String)
    (hq : pyStrip q ≠ "") (splits : List LCDoc)
    (openErr buildErr : String)
    (m : List ChatMessage → ModelResult) :
    create_retrieval_qa_chain_invoke (fun _ => .error e) retriever (some q) = .error e ∧
    (∀ dq dp dm s env libs p mn k err,
      chat_with_document_resolution dq dp dm s env = .proceed p mn k →
      chat_model_init (some p) mn (some k) libs = .error err →
      chat_with_document_until_model dq dp dm s env libs =
        .httpError 500 "Failed to analyze document") ∧
    (get_retriever (.ok splits) (.error openErr) (fun _ => .error buildErr)).1 = none ∧
    (get_retriever (.ok splits) (.ok 0) (fun _ => .error buildErr)).1 = none ∧
    create_retrieval_qa_chain_invoke (fun msgs => .ok (m msgs)) none (some q) =
      .ok ({ answer := extract_answer (m (format_messages "" (pyStrip q))),
             context := [] },
           { retrieverCalled := false, modelCalled := true }) := by
  refine ⟨?_, ?_, ?_, ?_, ?_⟩
  · unfold create_retrieval_qa_chain_invoke
    simp [hq]
  · intro dq dp dm s env libs p mn k err hres hinit
    simp [chat_with_document_until_model, hres, hinit]
  · simp [get_retriever]
  · simp [get_retriever]
  · unfold create_retrieval_qa_chain_invoke
    simp [hq, intercalate_nil_eq_empty]

/-- Witness for C1 amended at concrete inputs: an invocation error propagates
verbatim, and a construction failure (missing groq client library) surfaces
as the typed 500 response. -/
theorem answer_error_propagation_amended_witness :
    create_retrieval_qa_chain_invoke (fun _ => .error "rate limited")
        (some (fun _ => [])) (some "What is the term?") = .error "rate limited" ∧
    chat_with_document_until_model (some "What is the term?") (some "groq") none
        { preferred_provider := none, model_name := none,
          openai_api_key := none, gemini_api_key := none,
          claude_api_key := none, groq_api_key := some "gsk-user" }
        { OPENAI_API_KEY := none, GEMINI_API_KEY := none,
          ANTHROPIC_API_KEY := none, GROQ_API_KEY := none }
        { langchain_openai := true, langchain_google_genai := true,
          langchain_anthropic := true, langchain_groq := false } =
      .httpError 500 "Failed to analyze document" :=
  ⟨(answer_error_propagation_amended (some (fun _ => [])) "What is the term?"
      "rate limited" (by decide) [] "e1" "e2"
      (fun _ => { content := none, asString := "r" })).1,
   (answer_error_propagation_amended (some (fun _ => [])) "What is the term?"
      "rate limited" (by decide) [] "e1" "e2"
      (fun _ => { content := none, asString := "r" })).2.1
     (some "What is the term?") (some "groq") none
     { preferred_provider := none, model_name := none,
       openai_api_key := none, gemini_api_key := none,
       claude_api_key := none, groq_api_key := some "gsk-user" }
     { OPENAI_API_KEY := none, GEMINI_API_KEY := none,
       ANTHROPIC_API_KEY := none, GROQ_API_KEY := none }
     { langchain_openai := true, langchain_google_genai := true,
       langchain_anthropic := true, langchain_groq := false }
     "groq" "llama3-70b-8192" "gsk-user"
     (.runtimeError "Groq provider selected but \x27langchain-groq\x27 is not installed.")
     (by decide) (by decide)⟩

/-- The `documents` table row created by `upload_document`
(src/backend/server.py, lines 390-397). -/
structure DocumentRecord where
  user_id : Nat
  filename : String
  original_name : String
  file_path : String
  file_size : Nat
  indexed : Bool
deriving Repr, DecidableEq

/-- The response of the upload handler: HTTP status and the document row it
serialises. -/
structure UploadResponse where
  status : Nat
  document : DocumentRecord
deriving Repr, DecidableEq

/-- The indexing phase of `upload_document` (src/backend/server.py,
lines 402-414): after the document row is committed, `RAGPipeline.pipeline()`
is attempted inside `try`; on success `indexed` is set `True` and committed;
on any exception the failure is only logged and the handler still returns
HTTP 201 with the untouched row. -/
def upload_document_index_phase (document : DocumentRecord)
    (pipelineOutcome : Except String Unit) : UploadResponse :=
  match pipelineOutcome with
  | .ok _ => { status := 201, document := { document with indexed := true } }
  | .error _ => { status := 201, document := document }

/-- C9: any load/parse/index error during the upload-triggered Index
operation is caught at the pipeline boundary: the upload still succeeds with
HTTP 201 and the stored document record is returned unchanged (in particular
it stays unindexed). -/
theorem indexing_failure_nonfatal_to_upload
    (document : DocumentRecord) (e : String) :
    upload_document_index_phase document (.error e) =
      { status := 201, document := document } := by
  rfl

/-- Splitter configuration; both call sites in the repository pass
`chunk_size=1200, chunk_overlap=150`. -/
structure SplitterConfig where
  chunk_size : Nat
  chunk_overlap : Nat
deriving Repr, DecidableEq

/-- Modelled from the spec: `RecursiveCharacterTextSplitter` is third-party
library code not present under src/; this follows §4.2 — split the text on a
separator, the empty separator meaning single characters. -/
def splitBySeparator (sep : String) (text : String) : List String :=
  if sep = "" then text.toList.map (fun c => String.mk [c])
  else text.splitOn sep

/-- Modelled from the spec (§4.2): split on the largest available separator
first; any piece still exceeding `chunk_size` is recursively split on the
next-finer separator. -/
def refinePieces (chunk_size : Nat) : List String → String → List String
  | [], text => [text]
  | sep :: rest, text =>
    (splitBySeparator sep text).flatMap
      (fun p => if p.length > chunk_size then refinePieces chunk_size rest p else [p])

/-- The last `n` characters of a string (the overlap carried into the next
window). -/
def takeRight (n : Nat) (s : String) : String :=
  String.mk ((s.toList.reverse.take n).reverse)

/-- Modelled from the spec (§4.2): accumulate pieces into windows of up to
`chunk_size` characters, with `chunk_overlap` characters repeated at the
start of each window after the first. -/
def mergePieces (cfg : SplitterConfig) : List String → String → List String
  | [], current => if current = "" then [] else [current]
  | p :: rest, current =>
    if current = "" then mergePieces cfg rest p
    else if current.length + p.length ≤ cfg.chunk_size then
      mergePieces cfg rest (current ++ p)
    else
      current :: mergePieces cfg rest (takeRight cfg.chunk_overlap current ++ p)

/-- Modelled from the spec (§4.2): the deterministic recursive splitter,
separators paragraph break → line break → whitespace → character. -/
def split_text (cfg : SplitterConfig) (text : String) : List String :=
  mergePieces cfg (refinePieces cfg.chunk_size ["\n\n", "\n", " ", ""] text) ""

/-- `text_splitter.split_documents(...)`: split each document, each chunk
carrying the source document metadata. -/
def split_documents (cfg : SplitterConfig) (docs : List LCDoc) : List LCDoc :=
  docs.flatMap (fun d =>
    (split_text cfg d.page_content).map
      (fun t => { page_content := t, metadata := d.metadata }))

/-- The splitter configuration of `Retriever.get_retriever`
(src/rag/retriever.py, lines 19-22). -/
def retriever_splitter_config : SplitterConfig :=
  { chunk_size := 1200, chunk_overlap := 150 }

/-- The splitter configuration of the `document_chunks` endpoint
(src/backend/server.py, lines 691-694). -/
def document_chunks_splitter_config : SplitterConfig :=
  { chunk_size := 1200, chunk_overlap := 150 }

/-- The chunks the retriever embeds and persists. -/
def retriever_splits (docs : List LCDoc) : List LCDoc :=
  split_documents retriever_splitter_config docs

/-- One row of the chunk listing returned to the UI. -/
structure ChunkView where
  id : Nat
  text : String
  metadata : List (String × String)
deriving Repr, DecidableEq

/-- The chunk listing built by `document_chunks` (src/backend/server.py,
lines 700-713): the same splitter run again on the loaded document, enumerated
from 0. -/
def document_chunks_view (docs : List LCDoc) : List ChunkView :=
  (split_documents document_chunks_splitter_config docs).enum.map
    (fun p => { id := p.1, text := p.2.page_content, metadata := p.2.metadata })

/-- C8: chunking is deterministic and idempotent — re-running the splitter
with the same `{chunk_size := 1200, chunk_overlap := 150}` configuration on
the same input yields the identical chunk list, the two call sites use equal
configurations, and consequently the chunk listing produced for the UI
carries exactly the chunk texts and metadata used for retrieval, in the same
order. -/
theorem chunking_deterministic_ui_matches_retrieval (docs : List LCDoc) :
    split_documents retriever_splitter_config docs =
      split_documents retriever_splitter_config docs ∧
    retriever_splitter_config = document_chunks_splitter_config ∧
    (document_chunks_view docs).map (fun c => (c.text, c.metadata)) =
      (retriever_splits docs).map (fun d => (d.page_content, d.metadata)) := by
  refine ⟨rfl, rfl, ?_⟩
  unfold document_chunks_view retriever_splits
  rw [show document_chunks_splitter_config = retriever_splitter_config from rfl]
  rw [List.map_map]
  have : ((fun c : ChunkView => (c.text, c.metadata)) ∘
      (fun p : Nat × LCDoc =>
        ({ id := p.1, text := p.2.page_content, metadata := p.2.metadata } : ChunkView))) =
      (fun p : Nat × LCDoc => (p.2.page_content, p.2.metadata)) := rfl
  rw [this]
  have h2 : ∀ (k : Nat) (l : List LCDoc),
      (l.enumFrom k).map (fun p : Nat × LCDoc => (p.2.page_content, p.2.metadata)) =
        l.map (fun d : LCDoc => (d.page_content, d.metadata)) := by
    intro k l
    induction l generalizing k with
    | nil => rfl
    | cons x xs ihx => simp [List.enumFrom, ihx]
  exact h2 0 (split_documents retriever_splitter_config docs)

end LegalEagle
